import Mathlib

set_option maxHeartbeats 1000000

/- Shallow embedding of src/evals/table_formats_eval.py.

   The Python random.Random stream is abstracted as a tape (Nat → Nat) plus a position
   counter: every primitive draw reads one cell and advances the position.
   randint lo hi returns lo + cell % (hi + 1 - lo), always inside [lo, hi];
   choice over a list reads the element at index cell % length.  Every
   concrete seeded stream of draws is realised by some tape, so a theorem
   quantified over all tapes covers every seed.  The unbounded retry loop of
   _random_name is given explicit fuel; exhausting the fuel models the loop
   not having returned, as Option.none. -/

namespace TableFormats

/-- Python str.join: join a list of strings with a separator. -/
def joinSep (sep : String) : List String → String
  | [] => ""
  | [s] => s
  | s :: rest => s ++ sep ++ joinSep sep rest

/-- Characters Python str.strip removes: space, tab, newline, carriage
    return, vertical tab, form feed. -/
def isPySpace (c : Char) : Bool :=
  (c.toNat == 32) || (c.toNat == 9) || (c.toNat == 10) || (c.toNat == 13) ||
    (c.toNat == 11) || (c.toNat == 12)

/-- Drop trailing whitespace characters from a character list. -/
def dropTrailing (l : List Char) : List Char :=
  (l.reverse.dropWhile isPySpace).reverse

/-- Python str.strip: remove leading and trailing whitespace. -/
def pyStrip (s : String) : String :=
  String.mk (dropTrailing (s.data.dropWhile isPySpace))

/-- Python str of an int (decimal, sign for negatives, no separators). -/
def intToStr (i : Int) : String :=
  if i < 0 then "-" ++ Nat.repr i.natAbs else Nat.repr i.toNat

/-- FIRST_NAMES list from the module. -/
def FIRST_NAMES : List String :=
  ["Alice", "Benjamin", "Charlotte", "Diana", "Elliot", "Fiona", "Grace",
   "Henry", "Isla", "Jack", "Liam", "Maya", "Noah", "Olivia", "Paige",
   "Quinn", "Riley", "Sophia", "Theo", "Uma", "Violet", "Wyatt", "Xavier",
   "Yara", "Zane"]

/-- CITIES list from the module. -/
def CITIES : List String :=
  ["London", "New York", "San Francisco", "Berlin", "Paris", "Sydney",
   "Toronto", "Singapore", "Tokyo", "Dublin", "Chicago", "Austin", "Madrid",
   "Amsterdam", "Dubai", "Stockholm", "Zurich", "Hong Kong", "Vancouver",
   "Seoul"]

/-- DEPARTMENTS list from the module. -/
def DEPARTMENTS : List String :=
  ["Engineering", "Product", "Design", "Operations", "Finance", "Marketing",
   "Sales", "Support", "Customer Success", "Data"]

/-- string.ascii_uppercase. -/
def ASCII_UPPERCASE : List Char :=
  ['A', 'B', 'C', 'D', 'E', 'F', 'G', 'H', 'I', 'J', 'K', 'L', 'M',
   'N', 'O', 'P', 'Q', 'R', 'S', 'T', 'U', 'V', 'W', 'X', 'Y', 'Z']

/-- EmployeeRecord TypedDict, with the fields in their literal order. -/
structure EmployeeRecord where
  id : Nat
  name : String
  age : Nat
  city : String
  department : String
  salary : Nat
  years_experience : Nat
  project_count : Nat
deriving DecidableEq, Repr

/-- QAEntry TypedDict. -/
structure QAEntry where
  record_id : Nat
  field : String
  question : String
  answer : String
deriving DecidableEq, Repr

/-- rng.randint(lo, hi): one tape cell, result in [lo, hi]. -/
def randint (t : Nat → Nat) (pos lo hi : Nat) : Nat × Nat :=
  (lo + t pos % (hi + 1 - lo), pos + 1)

/-- _random_name: repeatedly draw first name, uppercase letter and 3-digit
    zero-padded number until the candidate is not in used; the candidate is
    recorded as used.  The unbounded while loop carries explicit fuel. -/
def pad3 (n : Nat) : String :=
  if n < 10 then "00" ++ Nat.repr n
  else if n < 100 then "0" ++ Nat.repr n
  else Nat.repr n

/-- One candidate of the _random_name loop body: rng.choice(FIRST_NAMES),
    rng.choice(string.ascii_uppercase), rng.randint(0, 999), rendered as
    f-string first, space, letter, zero-padded number. -/
def mkCandidate (t : Nat → Nat) (pos : Nat) : String :=
  FIRST_NAMES.getD (t pos % FIRST_NAMES.length) ("") ++ " " ++
    String.singleton (ASCII_UPPERCASE.getD (t (pos + 1) % ASCII_UPPERCASE.length) 'A') ++
    pad3 (t (pos + 2) % 1000)

def randomName (t : Nat → Nat) : Nat → List String → Nat → Option (String × List String × Nat)
  | 0, _, _ => none
  | fuel + 1, used, pos =>
    if mkCandidate t pos ∈ used then randomName t fuel used (pos + 3)
    else some (mkCandidate t pos, mkCandidate t pos :: used, pos + 3)

/-- Loop body sequence of generate_employee_records for identifiers
    idx, idx+1, ... while k counts the remaining records. -/
def genRecordsAux (t : Nat → Nat) (fuel : Nat) :
    Nat → Nat → List String → Nat → Option (List EmployeeRecord × List String × Nat)
  | _, 0, used, pos => some ([], used, pos)
  | idx, k + 1, used, pos =>
    match randomName t fuel used pos with
    | none => none
    | some (name, used1, pos1) =>
      let ag := randint t pos1 22 67
      let age := ag.1
      let max_experience := max 0 (age - 18)
      let ye := randint t ag.2 0 max_experience
      let years_experience := ye.1
      let sa := randint t ye.2 45000 165000
      let salary := sa.1
      let pc := randint t sa.2 0 60
      let project_count := pc.1
      let city := CITIES.getD (t pc.2 % CITIES.length) ("")
      let department := DEPARTMENTS.getD (t (pc.2 + 1) % DEPARTMENTS.length) ("")
      let r : EmployeeRecord :=
        ⟨idx, name, age, city, department, salary, years_experience, project_count⟩
      match genRecordsAux t fuel (idx + 1) k used1 (pc.2 + 2) with
      | none => none
      | some (rest, used2, pos2) => some (r :: rest, used2, pos2)

/-- generate_employee_records(count, seed): ids run 1..count; a count ≤ 0
    makes range(1, count+1) empty.  The tape t stands for the stream
    random.Random(seed) would produce. -/
def generate_employee_records (count : Int) (t : Nat → Nat) (fuel : Nat) :
    Option (List EmployeeRecord) :=
  (genRecordsAux t fuel 1 count.toNat [] 0).map (fun x => x.1)

/-- Keys of NUMERIC_FIELDS in their literal dict order. -/
def questionFields : List String :=
  ["salary", "years_experience", "age", "project_count"]

/-- record[field] for the four numeric fields. -/
def fieldValue (r : EmployeeRecord) (f : String) : Nat :=
  if f = "salary" then r.salary
  else if f = "years_experience" then r.years_experience
  else if f = "age" then r.age
  else r.project_count

/-- NUMERIC_FIELDS[field].format(name=record name). -/
def questionFor (f nm : String) : String :=
  if f = "salary" then
    "What is " ++ nm ++ "\x27s salary? (Return just the number, e.g. \x2785200\x27.)"
  else if f = "years_experience" then
    "How many years of experience does " ++ nm ++ " have? (Return just the number, e.g. \x2712\x27.)"
  else if f = "age" then
    "How old is " ++ nm ++ "? (Return just the number, e.g. \x2742\x27.)"
  else
    "How many projects has " ++ nm ++ " completed? (Return just the number, e.g. \x2715\x27.)"

/-- Python exception kinds raised by this module, plus a marker for the
    name-retry loop not having returned (fuel exhausted in the model). -/
inductive PyErr where
  | valueError : String → PyErr
  | keyError : String → PyErr
  | indexError : String → PyErr
  | nonTermination : PyErr
deriving DecidableEq, Repr

/-- Default record; never used on a non-empty sequence (mirrors that
    rng.choice only indexes into a non-empty list). -/
def defaultRecord : EmployeeRecord := ⟨0, "", 0, "", "", 0, 0, 0⟩

/-- Loop body of generate_questions; rng.choice on an empty sequence
    raises IndexError. -/
def genQuestionsAux (records : List EmployeeRecord) (t : Nat → Nat) :
    Nat → Nat → Except PyErr (List QAEntry)
  | 0, _ => Except.ok []
  | k + 1, pos =>
    if records.length = 0 then
      Except.error (PyErr.indexError ("Cannot choose from an empty sequence"))
    else
      let record := records.getD (t pos % records.length) defaultRecord
      let field := questionFields.getD (t (pos + 1) % questionFields.length) ("")
      let question := questionFor field record.name
      let answer := Nat.repr (fieldValue record field)
      match genQuestionsAux records t k (pos + 2) with
      | Except.error e => Except.error e
      | Except.ok rest =>
        Except.ok (⟨record.id, field, question, answer⟩ :: rest)

/-- generate_questions(records, count, seed); the tape t stands for the
    stream random.Random(seed) would produce. -/
def generate_questions (records : List EmployeeRecord) (count : Int) (t : Nat → Nat) :
    Except PyErr (List QAEntry) :=
  genQuestionsAux records t count.toNat 0

/-- The field order of the EmployeeRecord dict literal, i.e.
    list(record.keys()). -/
def headerNames : List String :=
  ["id", "name", "age", "city", "department", "salary", "years_experience",
   "project_count"]

/-- str(record[key]) for each key in order. -/
def recStrings (r : EmployeeRecord) : List String :=
  [Nat.repr r.id, r.name, Nat.repr r.age, r.city, r.department,
   Nat.repr r.salary, Nat.repr r.years_experience, Nat.repr r.project_count]

/-- Lowercase hex digit, as Python %x formatting renders 0–15. -/
def hexDigit (k : Nat) : Char := Nat.digitChar (k % 16)

/-- Four lowercase hex digits. -/
def hex4 (n : Nat) : String :=
  String.mk [hexDigit (n / 4096 % 16), hexDigit (n / 256 % 16),
             hexDigit (n / 16 % 16), hexDigit (n % 16)]

/-- json.dumps escaping of one character (ensure_ascii=True). -/
def jsonEscChar (c : Char) : String :=
  if c.toNat = 34 then "\\\""
  else if c.toNat = 92 then "\\\\"
  else if c.toNat = 10 then "\\n"
  else if c.toNat = 13 then "\\r"
  else if c.toNat = 9 then "\\t"
  else if c.toNat = 8 then "\\b"
  else if c.toNat = 12 then "\\f"
  else if c.toNat < 32 then "\\u" ++ hex4 c.toNat
  else if c.toNat < 127 then String.singleton c
  else if c.toNat < 65536 then "\\u" ++ hex4 c.toNat
  else
    "\\u" ++ hex4 (55296 + (c.toNat - 65536) / 1024) ++
      "\\u" ++ hex4 (56320 + (c.toNat - 65536) % 1024)

/-- json.dumps escaping of a string body. -/
def jsonEscape (s : String) : String :=
  String.mk (s.data.foldr (fun c acc => (jsonEscChar c).data ++ acc) [])

/-- A JSON string literal. -/
def jsonStr (s : String) : String :=
  "\"" ++ jsonEscape s ++ "\""

/-- One object of json.dumps(payload, indent=2): keys in dict order. -/
def jsonObj (r : EmployeeRecord) : String :=
  "  \x7b\n    \"id\": " ++ Nat.repr r.id ++
    ",\n    \"name\": " ++ jsonStr r.name ++
    ",\n    \"age\": " ++ Nat.repr r.age ++
    ",\n    \"city\": " ++ jsonStr r.city ++
    ",\n    \"department\": " ++ jsonStr r.department ++
    ",\n    \"salary\": " ++ Nat.repr r.salary ++
    ",\n    \"years_experience\": " ++ Nat.repr r.years_experience ++
    ",\n    \"project_count\": " ++ Nat.repr r.project_count ++ "\n  \x7d"

/-- format_json: json.dumps(list of dicts, indent=2). -/
def format_json (records : List EmployeeRecord) : String :=
  match records with
  | [] => "[]"
  | _ => "[\n" ++ joinSep (",\n") (records.map jsonObj) ++ "\n]"

/-- csv QUOTE_MINIMAL: quote when the field holds the delimiter, the quote
    char or a line-terminator character. -/
def csvNeedsQuote (s : String) : Bool :=
  s.data.any (fun c => (c.toNat == 44) || (c.toNat == 34) || (c.toNat == 13) || (c.toNat == 10))

/-- csv escaping inside a quoted field: double each quote char. -/
def csvEsc (s : String) : String :=
  String.mk (s.data.foldr (fun c acc => if c.toNat = 34 then c :: c :: acc else c :: acc) [])

/-- One csv field as csv.writer renders the str of a value. -/
def csvQuote (s : String) : String :=
  if csvNeedsQuote s then "\"" ++ csvEsc s ++ "\"" else s

/-- One csv row (fields joined by commas; writer appends CRLF, added at the
    join site in format_csv). -/
def csvRow (fields : List String) : String :=
  joinSep (",") (fields.map csvQuote)

/-- format_csv: header row plus one row per record via csv.DictWriter into a
    StringIO buffer (each row terminated by CRLF), then str.strip(). -/
def format_csv (records : List EmployeeRecord) : String :=
  match records with
  | [] => ""
  | _ =>
    pyStrip (String.join
      ((csvRow headerNames :: records.map (fun r => csvRow (recStrings r))).map
        (fun l => l ++ "\r\n")))

/-- The lines format_xml appends for one record. -/
def xmlRecordLines (r : EmployeeRecord) : List String :=
  ["  <employee id=\"" ++ Nat.repr r.id ++ "\">",
   "    <name>" ++ r.name ++ "</name>",
   "    <age>" ++ Nat.repr r.age ++ "</age>",
   "    <city>" ++ r.city ++ "</city>",
   "    <department>" ++ r.department ++ "</department>",
   "    <salary>" ++ Nat.repr r.salary ++ "</salary>",
   "    <years_experience>" ++ Nat.repr r.years_experience ++ "</years_experience>",
   "    <project_count>" ++ Nat.repr r.project_count ++ "</project_count>",
   "  </employee>"]

/-- format_xml. -/
def format_xml (records : List EmployeeRecord) : String :=
  joinSep ("\n")
    (["<?xml version=\"1.0\" encoding=\"UTF-8\"?>", "<employees>"] ++
      records.flatMap xmlRecordLines ++ ["</employees>"])

/-- The lines format_yaml appends for one record. -/
def yamlRecordLines (r : EmployeeRecord) : List String :=
  ["  - id: " ++ Nat.repr r.id,
   "    name: \"" ++ r.name ++ "\"",
   "    age: " ++ Nat.repr r.age,
   "    city: \"" ++ r.city ++ "\"",
   "    department: \"" ++ r.department ++ "\"",
   "    salary: " ++ Nat.repr r.salary,
   "    years_experience: " ++ Nat.repr r.years_experience,
   "    project_count: " ++ Nat.repr r.project_count]

/-- format_yaml. -/
def format_yaml (records : List EmployeeRecord) : String :=
  joinSep ("\n") ("records:" :: records.flatMap yamlRecordLines)

/-- format_html. -/
def format_html (records : List EmployeeRecord) : String :=
  match records with
  | [] => ""
  | _ =>
    joinSep ("\n")
      (["<table>", "  <thead>", "    <tr>"] ++
        headerNames.map (fun h => "      <th scope=\"col\">" ++ h ++ "</th>") ++
        ["    </tr>", "  </thead>", "  <tbody>"] ++
        records.flatMap (fun r =>
          "    <tr>" ::
            (recStrings r).map (fun v => "      <td>" ++ v ++ "</td>") ++
            ["    </tr>"]) ++
        ["  </tbody>", "</table>"])

/-- format_markdown_table. -/
def format_markdown_table (records : List EmployeeRecord) : String :=
  match records with
  | [] => ""
  | _ =>
    let header_row := "| " ++ joinSep (" | ") headerNames ++ " |"
    let divider_row := "| " ++ joinSep (" | ") (headerNames.map (fun _ => "---")) ++ " |"
    let body_rows := records.map (fun r => "| " ++ joinSep (" | ") (recStrings r) ++ " |")
    joinSep ("\n") (header_row :: divider_row :: body_rows)

/-- The key: value lines of one record, in dict order. -/
def kvLines (r : EmployeeRecord) : List String :=
  (headerNames.zip (recStrings r)).map (fun p => p.1 ++ ": " ++ p.2)

/-- format_markdown_kv. -/
def format_markdown_kv (records : List EmployeeRecord) : String :=
  joinSep ("\n")
    ("# Employee Database" ::
      records.flatMap (fun r =>
        ["", "## Record " ++ Nat.repr r.id, "", "```"] ++ kvLines r ++ ["```"]))

/-- The key = value lines of one record, in dict order. -/
def iniLines (r : EmployeeRecord) : List String :=
  (headerNames.zip (recStrings r)).map (fun p => p.1 ++ " = " ++ p.2)

/-- format_ini. -/
def format_ini (records : List EmployeeRecord) : String :=
  pyStrip (joinSep ("\n")
    (records.flatMap (fun r =>
      ("[employee_" ++ Nat.repr r.id ++ "]") :: iniLines r ++ [""])))

/-- format_pipe_delimited. -/
def format_pipe_delimited (records : List EmployeeRecord) : String :=
  match records with
  | [] => ""
  | _ => joinSep ("\n") (records.map (fun r => joinSep (" | ") (kvLines r)))

/-- One compact object of json.dumps(record) (default separators). -/
def jsonlObj (r : EmployeeRecord) : String :=
  "\x7b\"id\": " ++ Nat.repr r.id ++
    ", \"name\": " ++ jsonStr r.name ++
    ", \"age\": " ++ Nat.repr r.age ++
    ", \"city\": " ++ jsonStr r.city ++
    ", \"department\": " ++ jsonStr r.department ++
    ", \"salary\": " ++ Nat.repr r.salary ++
    ", \"years_experience\": " ++ Nat.repr r.years_experience ++
    ", \"project_count\": " ++ Nat.repr r.project_count ++ "\x7d"

/-- format_jsonl. -/
def format_jsonl (records : List EmployeeRecord) : String :=
  joinSep ("\n") (records.map jsonlObj)

/-- The prose sentence of one record in format_natural_language. -/
def nlSentence (r : EmployeeRecord) : String :=
  r.name ++ " (ID: " ++ Nat.repr r.id ++ ") is a " ++ Nat.repr r.age ++
    "-year-old employee working in the " ++ r.department ++
    " department in " ++ r.city ++ ". They earn $" ++ Nat.repr r.salary ++
    " with " ++ Nat.repr r.years_experience ++
    " years of experience and have completed " ++ Nat.repr r.project_count ++
    " projects."

/-- format_natural_language. -/
def format_natural_language (records : List EmployeeRecord) : String :=
  joinSep ("\n")
    ("Employee Records Summary:" :: records.flatMap (fun r => ["", nlSentence r]))

/-- FormatSpec named tuple. -/
structure FormatSpec where
  key : String
  label : String
  formatter : List EmployeeRecord → String

/-- FORMAT_SPECS dict as a lookup on the key. -/
def FORMAT_SPECS : String → Option FormatSpec
  | "json" => some ⟨"json", "JSON array", format_json⟩
  | "csv" => some ⟨"csv", "CSV", format_csv⟩
  | "xml" => some ⟨"xml", "XML", format_xml⟩
  | "yaml" => some ⟨"yaml", "YAML", format_yaml⟩
  | "html" => some ⟨"html", "HTML table", format_html⟩
  | "markdown_table" => some ⟨"markdown_table", "Markdown table", format_markdown_table⟩
  | "markdown_kv" => some ⟨"markdown_kv", "Markdown key-value blocks", format_markdown_kv⟩
  | "ini" => some ⟨"ini", "INI sections", format_ini⟩
  | "pipe_delimited" => some ⟨"pipe_delimited", "Pipe-delimited records", format_pipe_delimited⟩
  | "jsonl" => some ⟨"jsonl", "JSON Lines", format_jsonl⟩
  | "natural_language" => some ⟨"natural_language", "Natural language summary", format_natural_language⟩
  | _ => none

/-- FORMAT_ORDER list. -/
def FORMAT_ORDER : List String :=
  ["json", "csv", "xml", "yaml", "html", "markdown_table", "markdown_kv",
   "ini", "pipe_delimited", "jsonl", "natural_language"]

/-- A Python dict as an association list: lookup of a key. -/
def alookup {κ α : Type} [DecidableEq κ] : List (κ × α) → κ → Option α
  | [], _ => none
  | (k, v) :: rest, key => if key = k then some v else alookup rest key

/-- Sample from the external dataset layer: the fields build_samples sets
    (metadata flattened into named fields). -/
structure Sample where
  id : String
  input : String
  target : String
  meta_format : String
  meta_format_label : String
  meta_record_id : Nat
  meta_field : String
  meta_question : String
  meta_num_records : Int
  meta_num_questions : Int
deriving DecidableEq, Repr

/-- The module caches (RECORDS_CACHE, QUESTIONS_CACHE, FORMATTED_CACHE,
    SAMPLES_CACHE) plus call counters instrumenting how often the record
    generator, the question generator and a formatter were invoked. -/
structure ModuleState where
  records_cache : List (Int × List EmployeeRecord)
  questions_cache : List ((Int × Int) × List QAEntry)
  formatted_cache : List ((String × Int) × String)
  samples_cache : List ((String × Int × Int) × List Sample)
  gen_records_calls : Nat
  gen_questions_calls : Nat
  format_calls : Nat
deriving DecidableEq, Repr

/-- The state at import time: all four caches empty. -/
def initState : ModuleState := ⟨[], [], [], [], 0, 0, 0⟩

/-- get_records: validate, then serve from RECORDS_CACHE or generate with
    the fixed record seed (tape rt). -/
def get_records (rt : Nat → Nat) (fuel : Nat) (num_records : Int)
    (st : ModuleState) : Except PyErr (List EmployeeRecord × ModuleState) :=
  if num_records ≤ 0 then
    Except.error (PyErr.valueError ("num_records must be greater than zero"))
  else
    match alookup st.records_cache num_records with
    | some rs => Except.ok (rs, st)
    | none =>
      match generate_employee_records num_records rt fuel with
      | none => Except.error PyErr.nonTermination
      | some rs =>
        Except.ok (rs, { st with
          records_cache := (num_records, rs) :: st.records_cache,
          gen_records_calls := st.gen_records_calls + 1 })

/-- get_questions: validate, then serve from QUESTIONS_CACHE or obtain the
    records and generate with the fixed question seed (tape qt). -/
def get_questions (rt qt : Nat → Nat) (fuel : Nat)
    (num_records num_questions : Int) (st : ModuleState) :
    Except PyErr (List QAEntry × ModuleState) :=
  if num_questions ≤ 0 then
    Except.error (PyErr.valueError ("num_questions must be greater than zero"))
  else
    match alookup st.questions_cache (num_records, num_questions) with
    | some qs => Except.ok (qs, st)
    | none =>
      match get_records rt fuel num_records st with
      | Except.error e => Except.error e
      | Except.ok (records, st1) =>
        match generate_questions records num_questions qt with
        | Except.error e => Except.error e
        | Except.ok qs =>
          Except.ok (qs, { st1 with
            questions_cache := ((num_records, num_questions), qs) :: st1.questions_cache,
            gen_questions_calls := st1.gen_questions_calls + 1 })

/-- get_formatted_data: serve from FORMATTED_CACHE or obtain the records
    and apply FORMAT_SPECS[format_key].formatter (a plain dict access, so a
    missing key raises KeyError). -/
def get_formatted_data (rt : Nat → Nat) (fuel : Nat) (format_key : String)
    (num_records : Int) (st : ModuleState) :
    Except PyErr (String × ModuleState) :=
  match alookup st.formatted_cache (format_key, num_records) with
  | some s => Except.ok (s, st)
  | none =>
    match get_records rt fuel num_records st with
    | Except.error e => Except.error e
    | Except.ok (records, st1) =>
      match FORMAT_SPECS format_key with
      | none => Except.error (PyErr.keyError format_key)
      | some spec =>
        Except.ok (spec.formatter records, { st1 with
          formatted_cache := ((format_key, num_records), spec.formatter records) :: st1.formatted_cache,
          format_calls := st1.format_calls + 1 })

/-- The prompt build_samples assembles for one question (the dedented,
    stripped intro, the data block between the markers, the question and the
    answer cue). -/
def mkPrompt (label : String) (num_records : Int) (dataset_block question : String) : String :=
  "You are provided with " ++ intToStr num_records ++
    " employee records formatted as " ++ label ++
    ".\nEach record includes the fields: id, name, age, city, department, salary, years_experience, project_count.\nUse the data to answer the question.\nDATA START\n\n" ++
    dataset_block ++ "\nDATA END\n\nQuestion: " ++ question ++ "\nAnswer:"

/-- One Sample of build_samples. -/
def mkSample (format_key label : String) (num_records num_questions : Int)
    (dataset_block : String) (idx : Nat) (qa : QAEntry) : Sample :=
  ⟨format_key ++ "-" ++ Nat.repr idx,
   mkPrompt label num_records dataset_block qa.question,
   qa.answer, format_key, label, qa.record_id, qa.field, qa.question,
   num_records, num_questions⟩

/-- The enumerate loop of build_samples. -/
def buildSampleList (format_key label : String) (num_records num_questions : Int)
    (dataset_block : String) : Nat → List QAEntry → List Sample
  | _, [] => []
  | idx, qa :: rest =>
    mkSample format_key label num_records num_questions dataset_block idx qa ::
      buildSampleList format_key label num_records num_questions dataset_block (idx + 1) rest

/-- build_samples: serve from SAMPLES_CACHE, else check the registry, render
    the dataset, obtain the questions, build the samples and cache them. -/
def build_samples (rt qt : Nat → Nat) (fuel : Nat) (format_key : String)
    (num_records num_questions : Int) (st : ModuleState) :
    Except PyErr (List Sample × ModuleState) :=
  match alookup st.samples_cache (format_key, num_records, num_questions) with
  | some cached => Except.ok (cached, st)
  | none =>
    match FORMAT_SPECS format_key with
    | none => Except.error (PyErr.keyError ("Unknown format: " ++ format_key))
    | some spec =>
      match get_formatted_data rt fuel format_key num_records st with
      | Except.error e => Except.error e
      | Except.ok (dataset_block, st1) =>
        match get_questions rt qt fuel num_records num_questions st1 with
        | Except.error e => Except.error e
        | Except.ok (questions, st2) =>
          let samples := buildSampleList format_key spec.label num_records
            num_questions dataset_block 0 questions
          Except.ok (samples, { st2 with
            samples_cache := ((format_key, num_records, num_questions), samples) :: st2.samples_cache })

/-- Whether an Except is a success. -/
def isOkE {ε α : Type} : Except ε α → Bool
  | Except.ok _ => true
  | Except.error _ => false

/-- Every key present in SAMPLES_CACHE belongs to the format registry. -/
def ValidCache (st : ModuleState) : Prop :=
  ∀ e ∈ st.samples_cache, (FORMAT_SPECS e.1.1).isSome = true

/-- The shape of every name _random_name can emit: a first name from the
    list, a space, one uppercase letter and a zero-padded 3-digit number. -/
def NameShape (s : String) : Prop :=
  ∃ f l d, f ∈ FIRST_NAMES ∧ l ∈ ASCII_UPPERCASE ∧ d ≤ 999 ∧
    s = f ++ " " ++ String.singleton l ++ pad3 d

/-- A tape reading 0, 1, 2, ... used to exhibit concrete runs. -/
def tapeId : Nat → Nat := fun n => n

/-- An all-zero tape. -/
def tapeZero : Nat → Nat := fun _ => 0

/-- A concrete record used to exhibit question generation. -/
def sampleRecord : EmployeeRecord :=
  ⟨1, "Alice A000", 30, "London", "Data", 50000, 5, 7⟩

/-- The record list of a concrete successful 3-record generation run. -/
def run3 : List EmployeeRecord :=
  (generate_employee_records 3 tapeId 2).getD []

/-- The record list of a concrete successful 2-record generation run. -/
def run2 : List EmployeeRecord :=
  (generate_employee_records 2 tapeId 2).getD []

/-- The questions of a concrete successful question-generation run. -/
def sampleQs : List QAEntry :=
  match generate_questions [sampleRecord] 1 tapeZero with
  | Except.ok qs => qs
  | Except.error _ => []

/-- The result of a concrete successful build_samples call. -/
def sampleBuild : List Sample × ModuleState :=
  match build_samples tapeId tapeId 2 "csv" 1 1 initState with
  | Except.ok p => p
  | Except.error _ => ([], initState)

/-- Characters that occur in generated names, cities and departments:
    ASCII letters, decimal digits and the space. -/
def goodChar (c : Char) : Bool :=
  (65 ≤ c.toNat && c.toNat ≤ 90) || (97 ≤ c.toNat && c.toNat ≤ 122) ||
    (48 ≤ c.toNat && c.toNat ≤ 57) || (c.toNat == 32)

/-- A string of letters, digits and spaces only. -/
def GoodString (s : String) : Prop := ∀ c ∈ s.data, goodChar c = true

/-- A string without carriage return or newline: it spans one line. -/
def LineFree (s : String) : Prop := ∀ c ∈ s.data, c.toNat ≠ 13 ∧ c.toNat ≠ 10

/-- A string without double quote or backslash characters. -/
def QuoteFree (s : String) : Prop := ∀ c ∈ s.data, c.toNat ≠ 34 ∧ c.toNat ≠ 92

/-- One data row of format_csv with every field written out raw, in the
    header order id, name, age, city, department, salary, years_experience,
    project_count. -/
def csvLine (r : EmployeeRecord) : String :=
  Nat.repr r.id ++ "," ++ r.name ++ "," ++ Nat.repr r.age ++ "," ++
    r.city ++ "," ++ r.department ++ "," ++ Nat.repr r.salary ++ "," ++
    Nat.repr r.years_experience ++ "," ++ Nat.repr r.project_count

/-- One object of the indented JSON array with its string values raw,
    spelling out the key order id, name, age, city, department, salary,
    years_experience, project_count. -/
def jsonObjRaw (r : EmployeeRecord) : String :=
  "  \x7b\n    \"id\": " ++ Nat.repr r.id ++
    ",\n    \"name\": \"" ++ r.name ++
    "\",\n    \"age\": " ++ Nat.repr r.age ++
    ",\n    \"city\": \"" ++ r.city ++
    "\",\n    \"department\": \"" ++ r.department ++
    "\",\n    \"salary\": " ++ Nat.repr r.salary ++
    ",\n    \"years_experience\": " ++ Nat.repr r.years_experience ++
    ",\n    \"project_count\": " ++ Nat.repr r.project_count ++ "\n  \x7d"

/-- C1 counterexample: the claim lists exactly three encoders with non-empty
    output on the empty record sequence, but format_xml returns the XML
    declaration with an empty employees element and format_markdown_kv
    returns its fixed heading, so neither is the empty string. -/
theorem c1_counterexample :
    format_xml [] ≠ "" ∧ format_markdown_kv [] ≠ "" := by
  exact ⟨by decide, by decide⟩

/-- C1 (amended): on the empty record sequence the eleven encoders return
    exactly these values — csv, html, markdown_table, ini, pipe_delimited
    and jsonl give the empty string, while json gives the empty array text,
    xml the declaration plus an empty employees element, yaml and
    natural_language their fixed leading line, and markdown_kv its fixed
    heading: five exceptions, not three. -/
theorem c1_empty_encodings :
    format_json [] = "[]" ∧
    format_csv [] = "" ∧
    format_xml [] = "<?xml version=\"1.0\" encoding=\"UTF-8\"?>\n<employees>\n</employees>" ∧
    format_yaml [] = "records:" ∧
    format_html [] = "" ∧
    format_markdown_table [] = "" ∧
    format_markdown_kv [] = "# Employee Database" ∧
    format_ini [] = "" ∧
    format_pipe_delimited [] = "" ∧
    format_jsonl [] = "" ∧
    format_natural_language [] = "Employee Records Summary:" := by
  refine ⟨rfl, rfl, rfl, rfl, rfl, rfl, rfl, rfl, rfl, rfl, rfl⟩

/-- C2 counterexample: the raw generators do not reject non-positive
    counts — generate_employee_records returns the empty record list at
    count 0 (any tape stands for any seed), and generate_questions likewise
    returns an empty question list at count 0. -/
theorem c2_counterexample :
    generate_employee_records 0 tapeZero 1 = some [] ∧
    generate_questions [] 0 tapeZero = Except.ok [] := by
  exact ⟨rfl, rfl⟩

/-- C2 (amended): the count ≤ 0 rejection lives in the cached accessors,
    not in the generators — get_records raises ValueError for every
    num_records ≤ 0 and get_questions raises ValueError for every
    num_questions ≤ 0, in every cache state, before any generation. -/
theorem c2_nonpositive_rejected :
    (∀ (rt : Nat → Nat) (fuel : Nat) (n : Int) (st : ModuleState), n ≤ 0 →
      get_records rt fuel n st =
        Except.error (PyErr.valueError ("num_records must be greater than zero"))) ∧
    (∀ (rt qt : Nat → Nat) (fuel : Nat) (n q : Int) (st : ModuleState), q ≤ 0 →
      get_questions rt qt fuel n q st =
        Except.error (PyErr.valueError ("num_questions must be greater than zero"))) := by
  constructor
  · intro rt fuel n st h
    simp [get_records, h]
  · intro rt qt fuel n q st h
    simp [get_questions, h]

/-- C2 witness: the amended theorem applied at count 0 on the initial
    state. -/
theorem c2_witness :
    get_records tapeZero 1 0 initState =
      Except.error (PyErr.valueError ("num_records must be greater than zero")) ∧
    get_questions tapeZero tapeZero 1 1 0 initState =
      Except.error (PyErr.valueError ("num_questions must be greater than zero")) := by
  exact ⟨c2_nonpositive_rejected.1 tapeZero 1 0 initState (by decide),
         c2_nonpositive_rejected.2 tapeZero tapeZero 1 1 0 initState (by decide)⟩

/-- On a non-empty record list the loop body of generate_questions never
    reaches the empty-choice error, for any remaining count and position. -/
theorem genQuestionsAux_ok_of_ne_nil (records : List EmployeeRecord)
    (t : Nat → Nat) (h : records ≠ []) :
    ∀ (k pos : Nat), isOkE (genQuestionsAux records t k pos) = true := by
  intro k
  induction k with
  | zero => intro pos; rfl
  | succ k ih =>
    intro pos
    have hlen : records.length ≠ 0 := by
      simpa [List.length_eq_zero] using h
    simp only [genQuestionsAux, hlen, if_neg]
    cases hk : genQuestionsAux records t k (pos + 2) with
    | error e => have := ih (pos + 2); rw [hk] at this; simp [isOkE] at this
    | ok rest => simp [isOkE]

/-- C10: for every count ≥ 1 and any tape (i.e. any seed), question
    generation on an empty record sequence fails with the IndexError of
    choosing from an empty sequence; and whenever the record sequence is
    non-empty, the run succeeds, so the error branch is unreachable under
    that precondition. -/
theorem c10_empty_records_choice_fails :
    (∀ (count : Int) (t : Nat → Nat), 1 ≤ count →
      generate_questions [] count t =
        Except.error (PyErr.indexError ("Cannot choose from an empty sequence"))) ∧
    (∀ (records : List EmployeeRecord) (count : Int) (t : Nat → Nat),
      records ≠ [] → isOkE (generate_questions records count t) = true) := by
  constructor
  · intro count t hc
    have h1 : count.toNat ≠ 0 := by omega
    unfold generate_questions
    cases hk : count.toNat with
    | zero => exact absurd hk h1
    | succ k => simp [genQuestionsAux]
  · intro records count t h
    exact genQuestionsAux_ok_of_ne_nil records t h count.toNat 0

/-- C10 witness: the theorem applied at count 1 with the empty list, and at
    count 2 with a concrete one-record list. -/
theorem c10_witness :
    generate_questions [] 1 tapeZero =
      Except.error (PyErr.indexError ("Cannot choose from an empty sequence")) ∧
    isOkE (generate_questions [sampleRecord] 2 tapeZero) = true := by
  exact ⟨c10_empty_records_choice_fails.1 1 tapeZero (by decide),
         c10_empty_records_choice_fails.2 [sampleRecord] 2 tapeZero (by decide)⟩

/-- Indexing at cell % length lands in the list, which is how rng.choice is
    abstracted. -/
theorem getD_mod_mem {α : Type} (l : List α) (i : Nat) (d : α) (h : l ≠ []) :
    l.getD (i % l.length) d ∈ l := by
  have hlt : i % l.length < l.length := Nat.mod_lt _ (List.length_pos.mpr h)
  rw [List.getD_eq_getElem _ _ hlt]
  exact List.getElem_mem hlt

/-- Each question built by the loop of generate_questions carries the id of
    the chosen record, the str of the value of that record at the chosen field,
    and a field name from NUMERIC_FIELDS. -/
theorem genQuestionsAux_spec (records : List EmployeeRecord) (t : Nat → Nat) :
    ∀ (k pos : Nat) (qs : List QAEntry),
      genQuestionsAux records t k pos = Except.ok qs →
      ∀ qa ∈ qs, ∃ r, r ∈ records ∧ qa.record_id = r.id ∧
        qa.answer = Nat.repr (fieldValue r qa.field) ∧ qa.field ∈ questionFields := by
  intro k
  induction k with
  | zero =>
    intro pos qs h qa hqa
    simp only [genQuestionsAux] at h
    cases h
    cases hqa
  | succ k ih =>
    intro pos qs h qa hqa
    by_cases hlen : records.length = 0
    · simp [genQuestionsAux, hlen] at h
    · have hne : records ≠ [] := by
        simpa [List.length_eq_zero] using hlen
      simp only [genQuestionsAux, hlen, if_neg] at h
      cases hk : genQuestionsAux records t k (pos + 2) with
      | error e => rw [hk] at h; cases h
      | ok rest =>
        rw [hk] at h
        injection h with h
        subst h
        rcases List.mem_cons.mp hqa with hqa | hqa
        · subst hqa
          refine ⟨records.getD (t pos % records.length) defaultRecord,
            getD_mod_mem records (t pos) defaultRecord hne, rfl, rfl, ?_⟩
          have h4 : questionFields ≠ [] := by decide
          simpa using getD_mod_mem questionFields (t (pos + 1)) ("") h4
        · exact ih (pos + 2) rest hk qa hqa

/-- C3: for every question/answer pair produced by question generation, on
    any record list, any count and any tape (any seed), the answer string is
    exactly the decimal string of the value of the chosen record at the
    named numeric field, and record_id is the id of that record. -/
theorem c3_answer_fidelity (records : List EmployeeRecord) (count : Int)
    (t : Nat → Nat) (qs : List QAEntry)
    (h : generate_questions records count t = Except.ok qs) :
    ∀ qa ∈ qs, ∃ r, r ∈ records ∧ qa.record_id = r.id ∧
      qa.answer = Nat.repr (fieldValue r qa.field) ∧ qa.field ∈ questionFields :=
  genQuestionsAux_spec records t count.toNat 0 qs h

/-- C3 witness: the theorem applied to a concrete one-record,
    one-question run. -/
theorem c3_witness :
    generate_questions [sampleRecord] 1 tapeZero = Except.ok sampleQs ∧
    ∀ qa ∈ sampleQs, ∃ r, r ∈ [sampleRecord] ∧ qa.record_id = r.id ∧
      qa.answer = Nat.repr (fieldValue r qa.field) ∧ qa.field ∈ questionFields := by
  exact ⟨rfl, c3_answer_fidelity [sampleRecord] 1 tapeZero sampleQs rfl⟩

/-- Every candidate the name loop builds has the fixed shape. -/
theorem mkCandidate_shape (t : Nat → Nat) (pos : Nat) : NameShape (mkCandidate t pos) := by
  refine ⟨FIRST_NAMES.getD (t pos % FIRST_NAMES.length) (""),
    ASCII_UPPERCASE.getD (t (pos + 1) % ASCII_UPPERCASE.length) 'A',
    t (pos + 2) % 1000, ?_, ?_, ?_, rfl⟩
  · exact getD_mod_mem FIRST_NAMES (t pos) ("") (by decide)
  · exact getD_mod_mem ASCII_UPPERCASE (t (pos + 1)) 'A' (by decide)
  · omega

/-- When _random_name returns, the name has the fixed shape, was not yet
    used, and is recorded as used. -/
theorem randomName_spec (t : Nat → Nat) :
    ∀ (fuel : Nat) (used : List String) (pos : Nat) (nm : String)
      (used' : List String) (pos' : Nat),
      randomName t fuel used pos = some (nm, used', pos') →
      NameShape nm ∧ nm ∉ used ∧ used' = nm :: used := by
  intro fuel
  induction fuel with
  | zero => intro used pos nm used' pos' h; simp [randomName] at h
  | succ fuel ih =>
    intro used pos nm used' pos' h
    simp only [randomName] at h
    by_cases hmem : mkCandidate t pos ∈ used
    · rw [if_pos hmem] at h
      exact ih used (pos + 3) nm used' pos' h
    · rw [if_neg hmem] at h
      obtain ⟨h1, h2, h3⟩ : mkCandidate t pos = nm ∧ mkCandidate t pos :: used = used' ∧ pos + 3 = pos' := by
        simpa using h
      subst h1; subst h2
      exact ⟨mkCandidate_shape t pos, hmem, rfl⟩

/-- Every record the generation loop emits respects the draw bounds, draws
    city and department from the fixed lists, carries a shaped name, and the
    ids run idx, idx+1, ... in order. -/
theorem genRecordsAux_fields (t : Nat → Nat) (fuel : Nat) :
    ∀ (k idx : Nat) (used : List String) (pos : Nat)
      (rs : List EmployeeRecord) (used' : List String) (pos' : Nat),
      genRecordsAux t fuel idx k used pos = some (rs, used', pos') →
      (∀ r ∈ rs, NameShape r.name ∧ 22 ≤ r.age ∧ r.age ≤ 67 ∧
        r.years_experience ≤ max 0 (r.age - 18) ∧
        45000 ≤ r.salary ∧ r.salary ≤ 165000 ∧ r.project_count ≤ 60 ∧
        r.city ∈ CITIES ∧ r.department ∈ DEPARTMENTS) ∧
      rs.map (fun r => r.id) = List.range' idx k := by
  intro k
  induction k with
  | zero =>
    intro idx used pos rs used' pos' h
    simp only [genRecordsAux] at h
    cases h
    constructor
    · intro r hr; cases hr
    · simp
  | succ k ih =>
    intro idx used pos rs used' pos' h
    simp only [genRecordsAux, randint] at h
    cases hn : randomName t fuel used pos with
    | none => rw [hn] at h; cases h
    | some v =>
      obtain ⟨nm, used1, pos1⟩ := v
      rw [hn] at h
      dsimp only at h
      cases hk : genRecordsAux t fuel (idx + 1) k used1 (pos1 + 1 + 1 + 1 + 1 + 2) with
      | none => rw [hk] at h; cases h
      | some w =>
        obtain ⟨rest, used2, pos2⟩ := w
        rw [hk] at h
        dsimp only at h
        obtain ⟨ihm, ihid⟩ := ih (idx + 1) used1 (pos1 + 1 + 1 + 1 + 1 + 2) rest used2 pos2 hk
        cases h
        constructor
        · intro r hr
          rcases List.mem_cons.mp hr with hr | hr
          · subst hr
            have hshape := (randomName_spec t fuel used pos nm used1 pos1 hn).1
            have hy : t (pos1 + 1) % (max 0 (22 + t pos1 % (67 + 1 - 22) - 18) + 1 - 0) <
                max 0 (22 + t pos1 % (67 + 1 - 22) - 18) + 1 - 0 := Nat.mod_lt _ (by omega)
            refine ⟨hshape, by dsimp only; omega, by dsimp only; omega,
              by dsimp only; omega, by dsimp only; omega, by dsimp only; omega,
              by dsimp only; omega, ?_, ?_⟩
            · exact getD_mod_mem CITIES _ ("") (by decide)
            · exact getD_mod_mem DEPARTMENTS _ ("") (by decide)
          · exact ihm r hr
        · simp [List.range'_succ, ihid]

/-- C4: on every successful generation run (any count, any tape — i.e. any
    seed), every record satisfies 0 ≤ years_experience ≤ max(0, age−18),
    22 ≤ age ≤ 67, 45000 ≤ salary ≤ 165000, 0 ≤ project_count ≤ 60, and the
    ids are exactly 1, 2, ..., count in order. -/
theorem c4_record_bounds (count : Int) (t : Nat → Nat) (fuel : Nat)
    (rs : List EmployeeRecord)
    (h : generate_employee_records count t fuel = some rs) :
    (∀ r ∈ rs, 0 ≤ r.years_experience ∧ r.years_experience ≤ max 0 (r.age - 18) ∧
      22 ≤ r.age ∧ r.age ≤ 67 ∧ 45000 ≤ r.salary ∧ r.salary ≤ 165000 ∧
      0 ≤ r.project_count ∧ r.project_count ≤ 60) ∧
    rs.map (fun r => r.id) = List.range' 1 count.toNat := by
  unfold generate_employee_records at h
  cases hg : genRecordsAux t fuel 1 count.toNat [] 0 with
  | none => rw [hg] at h; cases h
  | some v =>
    obtain ⟨rs0, used', pos'⟩ := v
    rw [hg] at h
    obtain hrs : rs0 = rs := by simpa using h
    subst hrs
    obtain ⟨hm, hid⟩ := genRecordsAux_fields t fuel count.toNat 1 [] 0 rs0 used' pos' hg
    refine ⟨?_, hid⟩
    intro r hr
    obtain ⟨_, h1, h2, h3, h4, h5, h6, _, _⟩ := hm r hr
    exact ⟨Nat.zero_le _, h3, h1, h2, h4, h5, Nat.zero_le _, h6⟩

/-- C4 witness: the theorem applied to a concrete successful 3-record run. -/
theorem c4_witness :
    generate_employee_records 3 tapeId 2 = some run3 ∧
    ((∀ r ∈ run3, 0 ≤ r.years_experience ∧ r.years_experience ≤ max 0 (r.age - 18) ∧
      22 ≤ r.age ∧ r.age ≤ 67 ∧ 45000 ≤ r.salary ∧ r.salary ≤ 165000 ∧
      0 ≤ r.project_count ∧ r.project_count ≤ 60) ∧
      run3.map (fun r => r.id) = List.range' 1 (Int.toNat 3)) := by
  exact ⟨rfl, c4_record_bounds 3 tapeId 2 run3 rfl⟩

/-- The generation loop never emits a name already in used, and the emitted
    names are pairwise distinct. -/
theorem genRecordsAux_names (t : Nat → Nat) (fuel : Nat) :
    ∀ (k idx : Nat) (used : List String) (pos : Nat)
      (rs : List EmployeeRecord) (used' : List String) (pos' : Nat),
      genRecordsAux t fuel idx k used pos = some (rs, used', pos') →
      (∀ r ∈ rs, r.name ∉ used) ∧ (rs.map (fun r => r.name)).Nodup := by
  intro k
  induction k with
  | zero =>
    intro idx used pos rs used' pos' h
    simp only [genRecordsAux] at h
    cases h
    constructor
    · intro r hr; cases hr
    · simp
  | succ k ih =>
    intro idx used pos rs used' pos' h
    simp only [genRecordsAux, randint] at h
    cases hn : randomName t fuel used pos with
    | none => rw [hn] at h; cases h
    | some v =>
      obtain ⟨nm, used1, pos1⟩ := v
      rw [hn] at h
      dsimp only at h
      cases hk : genRecordsAux t fuel (idx + 1) k used1 (pos1 + 1 + 1 + 1 + 1 + 2) with
      | none => rw [hk] at h; cases h
      | some w =>
        obtain ⟨rest, used2, pos2⟩ := w
        rw [hk] at h
        dsimp only at h
        obtain ⟨ihnot, ihnd⟩ := ih (idx + 1) used1 (pos1 + 1 + 1 + 1 + 1 + 2) rest used2 pos2 hk
        obtain ⟨_, hnot, hused1⟩ := randomName_spec t fuel used pos nm used1 pos1 hn
        subst hused1
        cases h
        constructor
        · intro r hr
          rcases List.mem_cons.mp hr with hr | hr
          · subst hr; exact hnot
          · intro hcon
            exact ihnot r hr (List.mem_cons_of_mem nm hcon)
        · refine List.Pairwise.cons ?_ ihnd
          intro s hs hcon
          obtain ⟨r, hr, hrs⟩ := List.mem_map.mp hs
          subst hcon
          exact ihnot r hr (by subst hrs; exact List.mem_cons_self _ _)

/-- C5: on every successful generation run (any count, any tape — i.e. any
    seed) the record names are pairwise distinct. -/
theorem c5_names_unique (count : Int) (t : Nat → Nat) (fuel : Nat)
    (rs : List EmployeeRecord)
    (h : generate_employee_records count t fuel = some rs) :
    (rs.map (fun r => r.name)).Nodup := by
  unfold generate_employee_records at h
  cases hg : genRecordsAux t fuel 1 count.toNat [] 0 with
  | none => rw [hg] at h; cases h
  | some v =>
    obtain ⟨rs0, used', pos'⟩ := v
    rw [hg] at h
    obtain hrs : rs0 = rs := by simpa using h
    subst hrs
    exact (genRecordsAux_names t fuel count.toNat 1 [] 0 rs0 used' pos' hg).2

/-- C5 witness: the theorem applied to a concrete successful 3-record run. -/
theorem c5_witness :
    generate_employee_records 3 tapeId 2 = some run3 ∧
    (run3.map (fun r => r.name)).Nodup :=
  ⟨rfl, c5_names_unique 3 tapeId 2 run3 rfl⟩

/-- Splitting the generation loop: running it for a + b records is running
    it for a records and continuing for b more from the reached state. -/
theorem genRecordsAux_add (t : Nat → Nat) (fuel : Nat) :
    ∀ (a b idx : Nat) (used : List String) (pos : Nat),
      genRecordsAux t fuel idx (a + b) used pos =
        match genRecordsAux t fuel idx a used pos with
        | none => none
        | some (rs1, u1, p1) =>
          match genRecordsAux t fuel (idx + a) b u1 p1 with
          | none => none
          | some (rs2, u2, p2) => some (rs1 ++ rs2, u2, p2) := by
  intro a
  induction a with
  | zero =>
    intro b idx used pos
    simp only [genRecordsAux, Nat.zero_add, Nat.add_zero]
    cases hk : genRecordsAux t fuel idx b used pos with
    | none => rfl
    | some w => obtain ⟨rs2, u2, p2⟩ := w; rfl
  | succ a ih =>
    intro b idx used pos
    have hab : a + 1 + b = (a + b) + 1 := by omega
    rw [hab]
    simp only [genRecordsAux, randint]
    cases hn : randomName t fuel used pos with
    | none => rfl
    | some v =>
      obtain ⟨nm, used1, pos1⟩ := v
      dsimp only
      rw [ih b (idx + 1) used1 (pos1 + 1 + 1 + 1 + 1 + 2)]
      have hidx : idx + 1 + a = idx + (a + 1) := by omega
      rw [hidx]
      cases hk1 : genRecordsAux t fuel (idx + 1) a used1 (pos1 + 1 + 1 + 1 + 1 + 2) with
      | none => rfl
      | some w1 =>
        obtain ⟨rs1, u1, p1⟩ := w1
        dsimp only
        cases hk2 : genRecordsAux t fuel (idx + (a + 1)) b u1 p1 with
        | none => rfl
        | some w2 => obtain ⟨rs2, u2, p2⟩ := w2; rfl

/-- A successful run of the generation loop emits exactly k records. -/
theorem genRecordsAux_length (t : Nat → Nat) (fuel : Nat) :
    ∀ (k idx : Nat) (used : List String) (pos : Nat)
      (rs : List EmployeeRecord) (used' : List String) (pos' : Nat),
      genRecordsAux t fuel idx k used pos = some (rs, used', pos') →
      rs.length = k := by
  intro k
  induction k with
  | zero =>
    intro idx used pos rs used' pos' h
    simp only [genRecordsAux] at h
    cases h
    rfl
  | succ k ih =>
    intro idx used pos rs used' pos' h
    simp only [genRecordsAux, randint] at h
    cases hn : randomName t fuel used pos with
    | none => rw [hn] at h; cases h
    | some v =>
      obtain ⟨nm, used1, pos1⟩ := v
      rw [hn] at h
      dsimp only at h
      cases hk : genRecordsAux t fuel (idx + 1) k used1 (pos1 + 1 + 1 + 1 + 1 + 2) with
      | none => rw [hk] at h; cases h
      | some w =>
        obtain ⟨rest, used2, pos2⟩ := w
        rw [hk] at h
        dsimp only at h
        have := ih (idx + 1) used1 (pos1 + 1 + 1 + 1 + 1 + 2) rest used2 pos2 hk
        cases h
        simp [this]

/-- C9: with the same tape (same seed), the first n records of a successful
    m-record run are exactly the n-record run, field for field; record sets
    of different sizes agree on every shared prefix. -/
theorem c9_generation_take (n m : Int) (t : Nat → Nat) (fuel : Nat)
    (rsm : List EmployeeRecord) (hnm : n ≤ m)
    (h : generate_employee_records m t fuel = some rsm) :
    generate_employee_records n t fuel = some (rsm.take n.toNat) := by
  unfold generate_employee_records at h ⊢
  cases hg : genRecordsAux t fuel 1 m.toNat [] 0 with
  | none => rw [hg] at h; cases h
  | some v =>
    obtain ⟨rs0, used', pos'⟩ := v
    rw [hg] at h
    obtain hrs : rs0 = rsm := by simpa using h
    subst hrs
    have hsplit : m.toNat = n.toNat + (m.toNat - n.toNat) := by omega
    rw [hsplit, genRecordsAux_add t fuel n.toNat (m.toNat - n.toNat) 1 [] 0] at hg
    cases hk1 : genRecordsAux t fuel 1 n.toNat [] 0 with
    | none => rw [hk1] at hg; cases hg
    | some w1 =>
      obtain ⟨rs1, u1, p1⟩ := w1
      rw [hk1] at hg
      dsimp only at hg
      cases hk2 : genRecordsAux t fuel (1 + n.toNat) (m.toNat - n.toNat) u1 p1 with
      | none => rw [hk2] at hg; cases hg
      | some w2 =>
        obtain ⟨rs2, u2, p2⟩ := w2
        rw [hk2] at hg
        dsimp only at hg
        obtain ⟨hra, _, _⟩ : rs1 ++ rs2 = rs0 ∧ u2 = used' ∧ p2 = pos' := by
          simpa using hg
        have hlen : rs1.length = n.toNat :=
          genRecordsAux_length t fuel n.toNat 1 [] 0 rs1 u1 p1 hk1
        simp [← hra, List.take_left' hlen]

/-- C9 witness: the theorem applied at n = 1, m = 2 on a concrete tape. -/
theorem c9_witness :
    generate_employee_records 2 tapeId 2 = some run2 ∧
    generate_employee_records 1 tapeId 2 = some (run2.take (Int.toNat 1)) :=
  ⟨rfl, c9_generation_take 1 2 tapeId 2 run2 (by decide) rfl⟩

/-- A successful dict lookup means the binding is in the dict. -/
theorem alookup_mem {κ α : Type} [DecidableEq κ] :
    ∀ (l : List (κ × α)) (key : κ) (v : α),
      alookup l key = some v → (key, v) ∈ l := by
  intro l
  induction l with
  | nil => intro key v h; cases h
  | cons p rest ih =>
    intro key v h
    obtain ⟨k0, v0⟩ := p
    simp only [alookup] at h
    by_cases hk : key = k0
    · rw [if_pos hk] at h
      injection h with h
      subst hk; subst h
      exact List.mem_cons_self _ _
    · rw [if_neg hk] at h
      exact List.mem_cons_of_mem _ (ih key v h)

/-- Looking up the key just inserted returns the inserted value. -/
theorem alookup_cons_self {κ α : Type} [DecidableEq κ] (l : List (κ × α))
    (key : κ) (v : α) : alookup ((key, v) :: l) key = some v := by
  simp [alookup]

/-- get_records leaves SAMPLES_CACHE untouched. -/
theorem get_records_samples_cache (rt : Nat → Nat) (fuel : Nat) (n : Int)
    (st : ModuleState) (rs : List EmployeeRecord) (st' : ModuleState)
    (h : get_records rt fuel n st = Except.ok (rs, st')) :
    st'.samples_cache = st.samples_cache := by
  unfold get_records at h
  by_cases hn : n ≤ 0
  · rw [if_pos hn] at h; cases h
  · rw [if_neg hn] at h
    cases hl : alookup st.records_cache n with
    | some rs0 => rw [hl] at h; cases h; rfl
    | none =>
      rw [hl] at h
      cases hgen : generate_employee_records n rt fuel with
      | none => rw [hgen] at h; cases h
      | some rs1 => rw [hgen] at h; cases h; rfl

/-- get_questions leaves SAMPLES_CACHE untouched. -/
theorem get_questions_samples_cache (rt qt : Nat → Nat) (fuel : Nat)
    (n q : Int) (st : ModuleState) (qs : List QAEntry) (st' : ModuleState)
    (h : get_questions rt qt fuel n q st = Except.ok (qs, st')) :
    st'.samples_cache = st.samples_cache := by
  unfold get_questions at h
  by_cases hq : q ≤ 0
  · rw [if_pos hq] at h; cases h
  · rw [if_neg hq] at h
    cases hl : alookup st.questions_cache (n, q) with
    | some qs0 => rw [hl] at h; cases h; rfl
    | none =>
      rw [hl] at h
      cases hgr : get_records rt fuel n st with
      | error e => rw [hgr] at h; cases h
      | ok v =>
        obtain ⟨records, st1⟩ := v
        rw [hgr] at h
        dsimp only at h
        cases hgq : generate_questions records q qt with
        | error e => rw [hgq] at h; cases h
        | ok qs1 =>
          rw [hgq] at h
          cases h
          exact get_records_samples_cache rt fuel n st records st1 hgr

/-- get_formatted_data leaves SAMPLES_CACHE untouched. -/
theorem get_formatted_data_samples_cache (rt : Nat → Nat) (fuel : Nat)
    (fk : String) (n : Int) (st : ModuleState) (s : String) (st' : ModuleState)
    (h : get_formatted_data rt fuel fk n st = Except.ok (s, st')) :
    st'.samples_cache = st.samples_cache := by
  unfold get_formatted_data at h
  cases hl : alookup st.formatted_cache (fk, n) with
  | some s0 => rw [hl] at h; cases h; rfl
  | none =>
    rw [hl] at h
    cases hgr : get_records rt fuel n st with
    | error e => rw [hgr] at h; cases h
    | ok v =>
      obtain ⟨records, st1⟩ := v
      rw [hgr] at h
      dsimp only at h
      cases hs : FORMAT_SPECS fk with
      | none => rw [hs] at h; cases h
      | some spec =>
        rw [hs] at h
        cases h
        exact get_records_samples_cache rt fuel n st records st1 hgr

/-- C6: with any cache state whose SAMPLES_CACHE only holds registry keys
    (an invariant that holds initially and is preserved by every successful
    build_samples call), build_samples fails with the KeyError naming the
    unknown key, for every unknown key and all sizes; and each of the eleven
    registry keys resolves to its FormatSpec with that key, its label and
    its transform. -/
theorem c6_unknown_format_key :
    (∀ (fk : String) (n q : Int) (st : ModuleState) (rt qt : Nat → Nat) (fuel : Nat),
      FORMAT_SPECS fk = none → ValidCache st →
      build_samples rt qt fuel fk n q st =
        Except.error (PyErr.keyError ("Unknown format: " ++ fk))) ∧
    (∀ (rt qt : Nat → Nat) (fuel : Nat) (fk : String) (n q : Int)
      (st : ModuleState) (res : List Sample × ModuleState),
      build_samples rt qt fuel fk n q st = Except.ok res → ValidCache st →
      ValidCache res.2) ∧
    ValidCache initState ∧
    (FORMAT_SPECS "json" = some ⟨"json", "JSON array", format_json⟩ ∧
     FORMAT_SPECS "csv" = some ⟨"csv", "CSV", format_csv⟩ ∧
     FORMAT_SPECS "xml" = some ⟨"xml", "XML", format_xml⟩ ∧
     FORMAT_SPECS "yaml" = some ⟨"yaml", "YAML", format_yaml⟩ ∧
     FORMAT_SPECS "html" = some ⟨"html", "HTML table", format_html⟩ ∧
     FORMAT_SPECS "markdown_table" = some ⟨"markdown_table", "Markdown table", format_markdown_table⟩ ∧
     FORMAT_SPECS "markdown_kv" = some ⟨"markdown_kv", "Markdown key-value blocks", format_markdown_kv⟩ ∧
     FORMAT_SPECS "ini" = some ⟨"ini", "INI sections", format_ini⟩ ∧
     FORMAT_SPECS "pipe_delimited" = some ⟨"pipe_delimited", "Pipe-delimited records", format_pipe_delimited⟩ ∧
     FORMAT_SPECS "jsonl" = some ⟨"jsonl", "JSON Lines", format_jsonl⟩ ∧
     FORMAT_SPECS "natural_language" = some ⟨"natural_language", "Natural language summary", format_natural_language⟩) := by
  refine ⟨?_, ?_, ?_, rfl, rfl, rfl, rfl, rfl, rfl, rfl, rfl, rfl, rfl, rfl⟩
  · intro fk n q st rt qt fuel hnone hvc
    unfold build_samples
    cases hl : alookup st.samples_cache (fk, n, q) with
    | some cached =>
      exfalso
      have hm := alookup_mem st.samples_cache (fk, n, q) cached hl
      have := hvc _ hm
      rw [hnone] at this
      cases this
    | none => rw [hnone]
  · intro rt qt fuel fk n q st res h hvc
    unfold build_samples at h
    cases hl : alookup st.samples_cache (fk, n, q) with
    | some cached => rw [hl] at h; cases h; exact hvc
    | none =>
      rw [hl] at h
      cases hs : FORMAT_SPECS fk with
      | none => rw [hs] at h; cases h
      | some spec =>
        rw [hs] at h
        dsimp only at h
        cases hgf : get_formatted_data rt fuel fk n st with
        | error e => rw [hgf] at h; cases h
        | ok v1 =>
          obtain ⟨block, st1⟩ := v1
          rw [hgf] at h
          dsimp only at h
          cases hgq : get_questions rt qt fuel n q st1 with
          | error e => rw [hgq] at h; cases h
          | ok v2 =>
            obtain ⟨questions, st2⟩ := v2
            rw [hgq] at h
            cases h
            intro e he
            rcases List.mem_cons.mp he with he | he
            · subst he; simp [hs]
            · have h2 : st2.samples_cache = st1.samples_cache :=
                get_questions_samples_cache rt qt fuel n q st1 questions st2 hgq
              have h1 : st1.samples_cache = st.samples_cache :=
                get_formatted_data_samples_cache rt fuel fk n st block st1 hgf
              apply hvc
              rw [← h1, ← h2]
              exact he
  · intro e he; cases he

/-- C6 witness: the unknown-key part applied to the key bogus on the
    initial state, whose cache-validity is the third part of the theorem. -/
theorem c6_witness :
    build_samples tapeZero tapeZero 1 "bogus" 1 1 initState =
      Except.error (PyErr.keyError ("Unknown format: bogus")) :=
  c6_unknown_format_key.1 "bogus" 1 1 initState tapeZero tapeZero 1 rfl
    c6_unknown_format_key.2.2.1

/-- C7: if build_samples returns (samples, st'), a second call with the same
    arguments from st' returns exactly the same samples and exactly the same
    state st' — so the caches and all three generation call counters are
    unchanged: no record, question or formatting generation happens again. -/
theorem c7_build_samples_memoized (rt qt : Nat → Nat) (fuel : Nat)
    (fk : String) (n q : Int) (st : ModuleState) (p : List Sample × ModuleState)
    (h : build_samples rt qt fuel fk n q st = Except.ok p) :
    build_samples rt qt fuel fk n q p.2 = Except.ok p := by
  unfold build_samples at h ⊢
  cases hl : alookup st.samples_cache (fk, n, q) with
  | some cached =>
    rw [hl] at h
    cases h
    rw [hl]
  | none =>
    rw [hl] at h
    cases hs : FORMAT_SPECS fk with
    | none => rw [hs] at h; cases h
    | some spec =>
      rw [hs] at h
      dsimp only at h
      cases hgf : get_formatted_data rt fuel fk n st with
      | error e => rw [hgf] at h; cases h
      | ok v1 =>
        obtain ⟨block, st1⟩ := v1
        rw [hgf] at h
        dsimp only at h
        cases hgq : get_questions rt qt fuel n q st1 with
        | error e => rw [hgq] at h; cases h
        | ok v2 =>
          obtain ⟨questions, st2⟩ := v2
          rw [hgq] at h
          cases h
          rw [alookup_cons_self]

/-- C7 witness: the theorem applied to a concrete first call on the initial
    state. -/
theorem c7_witness :
    build_samples tapeId tapeId 2 "csv" 1 1 initState = Except.ok sampleBuild ∧
    build_samples tapeId tapeId 2 "csv" 1 1 sampleBuild.2 = Except.ok sampleBuild :=
  ⟨rfl, c7_build_samples_memoized tapeId tapeId 2 "csv" 1 1 initState sampleBuild rfl⟩

/-- Strings with equal character lists are equal. -/
theorem string_ext_data {a b : String} (h : a.data = b.data) : a = b := by
  cases a; cases b; exact congrArg String.mk h

/-- GoodString is closed under append. -/
theorem goodString_append {a b : String} (ha : GoodString a) (hb : GoodString b) :
    GoodString (a ++ b) := by
  intro c hc
  rw [String.data_append] at hc
  rcases List.mem_append.mp hc with hc | hc
  · exact ha c hc
  · exact hb c hc

/-- The decimal digit characters sit at code points 48–57. -/
theorem digitChar_digit (k : Nat) (h : k < 10) :
    48 ≤ (Nat.digitChar k).toNat ∧ (Nat.digitChar k).toNat ≤ 57 := by
  interval_cases k <;> simp [Nat.digitChar]

/-- The decimal rendering loop only pushes digit characters. -/
theorem toDigitsCore_digit :
    ∀ (f n : Nat) (ds : List Char), (∀ c ∈ ds, 48 ≤ c.toNat ∧ c.toNat ≤ 57) →
      ∀ c ∈ Nat.toDigitsCore 10 f n ds, 48 ≤ c.toNat ∧ c.toNat ≤ 57 := by
  intro f
  induction f with
  | zero => intro n ds hds c hc; exact hds c hc
  | succ f ih =>
    intro n ds hds c hc
    simp only [Nat.toDigitsCore] at hc
    have hd : 48 ≤ (Nat.digitChar (n % 10)).toNat ∧ (Nat.digitChar (n % 10)).toNat ≤ 57 :=
      digitChar_digit (n % 10) (Nat.mod_lt _ (by omega))
    by_cases h0 : n / 10 = 0
    · rw [if_pos h0] at hc
      rcases List.mem_cons.mp hc with hc | hc
      · subst hc; exact hd
      · exact hds c hc
    · rw [if_neg h0] at hc
      refine ih (n / 10) (Nat.digitChar (n % 10) :: ds) ?_ c hc
      intro c2 hc2
      rcases List.mem_cons.mp hc2 with hc2 | hc2
      · subst hc2; exact hd
      · exact hds c2 hc2

/-- The decimal rendering loop never returns the empty list when it has
    fuel or a seed list. -/
theorem toDigitsCore_ne_nil :
    ∀ (f n : Nat) (ds : List Char), f ≠ 0 ∨ ds ≠ [] →
      Nat.toDigitsCore 10 f n ds ≠ [] := by
  intro f
  induction f with
  | zero =>
    intro n ds h
    rcases h with h | h
    · exact absurd rfl h
    · simpa [Nat.toDigitsCore] using h
  | succ f ih =>
    intro n ds h
    simp only [Nat.toDigitsCore]
    by_cases h0 : n / 10 = 0
    · rw [if_pos h0]; simp
    · rw [if_neg h0]
      exact ih (n / 10) (Nat.digitChar (n % 10) :: ds) (Or.inr (by simp))

/-- Every character of the decimal string of a Nat is a digit. -/
theorem repr_digits (n : Nat) :
    ∀ c ∈ (Nat.repr n).data, 48 ≤ c.toNat ∧ c.toNat ≤ 57 := by
  intro c hc
  have hrepr : (Nat.repr n).data = Nat.toDigits 10 n := rfl
  rw [hrepr] at hc
  exact toDigitsCore_digit (n + 1) n [] (by intro c2 hc2; cases hc2) c hc

/-- The decimal string of a Nat is never empty. -/
theorem repr_ne_nil (n : Nat) : (Nat.repr n).data ≠ [] := by
  have hrepr : (Nat.repr n).data = Nat.toDigits 10 n := rfl
  rw [hrepr]
  exact toDigitsCore_ne_nil (n + 1) n [] (Or.inl (by omega))

/-- Digits are good characters. -/
theorem repr_good (n : Nat) : GoodString (Nat.repr n) := by
  intro c hc
  have := repr_digits n c hc
  simp only [goodChar, Bool.or_eq_true, Bool.and_eq_true, decide_eq_true_eq,
    beq_iff_eq]
  omega

/-- The decimal string of a Nat ends in a digit. -/
theorem repr_rev_digit (n : Nat) :
    ∃ c tl, (Nat.repr n).data.reverse = c :: tl ∧ 48 ≤ c.toNat ∧ c.toNat ≤ 57 := by
  cases hrev : (Nat.repr n).data.reverse with
  | nil =>
    exfalso
    exact repr_ne_nil n (by simpa using congrArg List.reverse hrev)
  | cons c tl =>
    have hc : c ∈ (Nat.repr n).data := by
      rw [← List.mem_reverse, hrev]
      exact List.mem_cons_self _ _
    exact ⟨c, tl, rfl, repr_digits n c hc⟩

/-- Unfolding of goodChar into arithmetic ranges. -/
theorem goodChar_spec {c : Char} (h : goodChar c = true) :
    (65 ≤ c.toNat ∧ c.toNat ≤ 90) ∨ (97 ≤ c.toNat ∧ c.toNat ≤ 122) ∨
      (48 ≤ c.toNat ∧ c.toNat ≤ 57) ∨ c.toNat = 32 := by
  have h2 := h
  simp only [goodChar, Bool.or_eq_true, Bool.and_eq_true, decide_eq_true_eq,
    beq_iff_eq] at h2
  tauto

/-- Good strings contain no line terminators. -/
theorem GoodString.lineFree {s : String} (h : GoodString s) : LineFree s := by
  intro c hc
  have := goodChar_spec (h c hc)
  omega

/-- Good strings contain no quotes or backslashes. -/
theorem GoodString.quoteFree {s : String} (h : GoodString s) : QuoteFree s := by
  intro c hc
  have := goodChar_spec (h c hc)
  omega

/-- All first names are good strings. -/
theorem FIRST_NAMES_good : ∀ s ∈ FIRST_NAMES, GoodString s := by
  intro s hs
  have hall : FIRST_NAMES.all (fun s => s.data.all goodChar) = true := by decide
  have := List.all_eq_true.mp hall s hs
  intro c hc
  exact List.all_eq_true.mp this c hc

/-- All cities are good strings. -/
theorem CITIES_good : ∀ s ∈ CITIES, GoodString s := by
  intro s hs
  have hall : CITIES.all (fun s => s.data.all goodChar) = true := by decide
  have := List.all_eq_true.mp hall s hs
  intro c hc
  exact List.all_eq_true.mp this c hc

/-- All departments are good strings. -/
theorem DEPARTMENTS_good : ∀ s ∈ DEPARTMENTS, GoodString s := by
  intro s hs
  have hall : DEPARTMENTS.all (fun s => s.data.all goodChar) = true := by decide
  have := List.all_eq_true.mp hall s hs
  intro c hc
  exact List.all_eq_true.mp this c hc

/-- All uppercase letters are good characters. -/
theorem ASCII_UPPERCASE_good : ∀ c ∈ ASCII_UPPERCASE, goodChar c = true := by decide

/-- Zero-padded three-digit numbers are good strings. -/
theorem pad3_good (d : Nat) : GoodString (pad3 d) := by
  unfold pad3
  by_cases h1 : d < 10
  · rw [if_pos h1]
    exact goodString_append (by unfold GoodString; decide) (repr_good d)
  · rw [if_neg h1]
    by_cases h2 : d < 100
    · rw [if_pos h2]
      exact goodString_append (by unfold GoodString; decide) (repr_good d)
    · rw [if_neg h2]
      exact repr_good d

/-- Every name _random_name can emit is a good string. -/
theorem NameShape.good {s : String} (h : NameShape s) : GoodString s := by
  obtain ⟨f, l, d, hf, hl, _, hs⟩ := h
  subst hs
  refine goodString_append (goodString_append (goodString_append ?_ ?_) ?_) (pad3_good d)
  · exact FIRST_NAMES_good f hf
  · unfold GoodString; decide
  · intro c hc
    rw [show (String.singleton l).data = [l] from rfl] at hc
    have hcl : c = l := by simpa using hc
    subst hcl
    exact ASCII_UPPERCASE_good c hl

/-- Good strings need no csv quoting. -/
theorem GoodString.csvQuote_eq {s : String} (h : GoodString s) : csvQuote s = s := by
  have hq : csvNeedsQuote s = false := by
    rw [csvNeedsQuote, List.any_eq_false]
    intro c hc
    have := goodChar_spec (h c hc)
    simp only [Bool.or_eq_true, beq_iff_eq]
    omega
  rw [csvQuote, hq]
  simp

/-- Good characters escape to themselves in JSON. -/
theorem goodChar_jsonEscChar {c : Char} (h : goodChar c = true) :
    jsonEscChar c = String.singleton c := by
  have hr := goodChar_spec h
  have e34 : ¬ c.toNat = 34 := by omega
  have e92 : ¬ c.toNat = 92 := by omega
  have e10 : ¬ c.toNat = 10 := by omega
  have e13 : ¬ c.toNat = 13 := by omega
  have e9 : ¬ c.toNat = 9 := by omega
  have e8 : ¬ c.toNat = 8 := by omega
  have e12 : ¬ c.toNat = 12 := by omega
  have elo : ¬ c.toNat < 32 := by omega
  have ehi : c.toNat < 127 := by omega
  rw [jsonEscChar]
  rw [if_neg e34, if_neg e92, if_neg e10, if_neg e13, if_neg e9, if_neg e8,
    if_neg e12, if_neg elo, if_pos ehi]

/-- Folding the escape over good characters is the identity. -/
theorem jsonEscape_list (l : List Char) (h : ∀ c ∈ l, goodChar c = true) :
    List.foldr (fun c acc => (jsonEscChar c).data ++ acc) [] l = l := by
  induction l with
  | nil => rfl
  | cons c l ih =>
    rw [List.foldr_cons, ih (fun c2 hc2 => h c2 (List.mem_cons_of_mem _ hc2)),
      goodChar_jsonEscChar (h c (List.mem_cons_self _ _))]
    rfl

/-- Good strings escape to themselves in JSON. -/
theorem GoodString.jsonEscape_eq {s : String} (h : GoodString s) : jsonEscape s = s := by
  apply string_ext_data
  exact jsonEscape_list s.data h

/-- The JSON literal of a good string is just the quoted string. -/
theorem GoodString.jsonStr_eq {s : String} (h : GoodString s) :
    jsonStr s = "\"" ++ s ++ "\"" := by
  rw [jsonStr, h.jsonEscape_eq]

/-- str.strip of a block ending in CRLF whose body starts and ends with
    non-whitespace characters removes exactly that CRLF. -/
theorem pyStrip_append_crlf (A : String)
    (h1 : ∃ c tl, A.data = c :: tl ∧ isPySpace c = false)
    (h2 : ∃ c tl, A.data.reverse = c :: tl ∧ isPySpace c = false) :
    pyStrip (A ++ "\r\n") = A := by
  obtain ⟨c1, t1, hc1, hs1⟩ := h1
  obtain ⟨c2, t2, hc2, hs2⟩ := h2
  have hdata : (A ++ "\r\n").data = A.data ++ ['\r', '\n'] := by
    rw [String.data_append]
  have e1 : (A ++ "\r\n").data.dropWhile isPySpace = A.data ++ ['\r', '\n'] := by
    rw [hdata, hc1, List.cons_append, List.dropWhile_cons, hs1]
    simp
  have e2 : dropTrailing (A.data ++ ['\r', '\n']) = A.data := by
    unfold dropTrailing
    rw [List.reverse_append]
    rw [show (['\r', '\n'] : List Char).reverse = ['\n', '\r'] from rfl]
    simp only [List.cons_append, List.nil_append]
    rw [List.dropWhile_cons]
    rw [show isPySpace '\n' = true from rfl]
    simp only [if_true]
    rw [List.dropWhile_cons]
    rw [show isPySpace '\r' = true from rfl]
    simp only [if_true]
    rw [hc2, List.dropWhile_cons, hs2]
    simp only [Bool.false_eq_true, if_false]
    rw [← hc2, List.reverse_reverse]
  unfold pyStrip
  rw [e1, e2]

/-- The csv header row rendered by the DictWriter. -/
theorem csvRow_header :
    csvRow headerNames =
      "id,name,age,city,department,salary,years_experience,project_count" := by
  decide

/-- A record whose string fields are good renders to the raw csv line. -/
theorem csvRow_eq_csvLine (r : EmployeeRecord) (hn : GoodString r.name)
    (hc : GoodString r.city) (hd : GoodString r.department) :
    csvRow (recStrings r) = csvLine r := by
  unfold csvRow recStrings csvLine
  simp only [List.map_cons, List.map_nil, joinSep]
  rw [hn.csvQuote_eq, hc.csvQuote_eq, hd.csvQuote_eq,
    (repr_good r.id).csvQuote_eq, (repr_good r.age).csvQuote_eq,
    (repr_good r.salary).csvQuote_eq, (repr_good r.years_experience).csvQuote_eq,
    (repr_good r.project_count).csvQuote_eq]
  apply string_ext_data
  simp [String.data_append, List.append_assoc]

/-- A record whose string fields are good renders to the raw indented JSON
    object. -/
theorem jsonObj_raw (r : EmployeeRecord) (hn : GoodString r.name)
    (hc : GoodString r.city) (hd : GoodString r.department) :
    jsonObj r = jsonObjRaw r := by
  unfold jsonObj jsonObjRaw
  rw [hn.jsonStr_eq, hc.jsonStr_eq, hd.jsonStr_eq]
  apply string_ext_data
  simp [String.data_append, List.append_assoc]

/-- A character is not Python whitespace when its code point avoids the six
    whitespace code points. -/
theorem isPySpace_eq_false {c : Char} (h : c.toNat ≠ 32 ∧ c.toNat ≠ 9 ∧
    c.toNat ≠ 10 ∧ c.toNat ≠ 13 ∧ c.toNat ≠ 11 ∧ c.toNat ≠ 12) :
    isPySpace c = false := by
  rw [Bool.eq_false_iff]
  intro hcon
  simp only [isPySpace, Bool.or_eq_true, beq_iff_eq] at hcon
  omega

/-- A non-whitespace head survives prefixing to any append. -/
theorem head_append (X Y : String)
    (h : ∃ c tl, X.data = c :: tl ∧ isPySpace c = false) :
    ∃ c tl, (X ++ Y).data = c :: tl ∧ isPySpace c = false := by
  obtain ⟨c, tl, hdat, hsp⟩ := h
  exact ⟨c, tl ++ Y.data, by rw [String.data_append, hdat, List.cons_append], hsp⟩

/-- A non-whitespace last character survives appending to anything. -/
theorem rev_append (X Y : String)
    (h : ∃ c tl, Y.data.reverse = c :: tl ∧ isPySpace c = false) :
    ∃ c tl, (X ++ Y).data.reverse = c :: tl ∧ isPySpace c = false := by
  obtain ⟨c, tl, hdat, hsp⟩ := h
  refine ⟨c, tl ++ X.data.reverse, ?_, hsp⟩
  rw [String.data_append, List.reverse_append, hdat, List.cons_append]

/-- The decimal string of a Nat ends in a non-whitespace character. -/
theorem repr_rev_nonspace (n : Nat) :
    ∃ c tl, (Nat.repr n).data.reverse = c :: tl ∧ isPySpace c = false := by
  obtain ⟨c, tl, hdat, hlo, hhi⟩ := repr_rev_digit n
  exact ⟨c, tl, hdat, isPySpace_eq_false (by omega)⟩

/-- format_json of three records whose string fields are good is the
    two-space-indented three-object array with keys in the canonical
    order. -/
theorem format_json_three (r1 r2 r3 : EmployeeRecord)
    (h1n : GoodString r1.name) (h1c : GoodString r1.city) (h1d : GoodString r1.department)
    (h2n : GoodString r2.name) (h2c : GoodString r2.city) (h2d : GoodString r2.department)
    (h3n : GoodString r3.name) (h3c : GoodString r3.city) (h3d : GoodString r3.department) :
    format_json [r1, r2, r3] =
      "[\n" ++ jsonObjRaw r1 ++ ",\n" ++ jsonObjRaw r2 ++ ",\n" ++ jsonObjRaw r3 ++ "\n]" := by
  show "[\n" ++ joinSep (",\n") [jsonObj r1, jsonObj r2, jsonObj r3] ++ "\n]" = _
  simp only [joinSep]
  rw [jsonObj_raw r1 h1n h1c h1d, jsonObj_raw r2 h2n h2c h2d, jsonObj_raw r3 h3n h3c h3d]
  apply string_ext_data
  simp [String.data_append, List.append_assoc]

/-- format_csv of three records whose string fields are good is the header
    line and the three raw rows, CRLF-separated, with the final CRLF
    stripped. -/
theorem format_csv_three (r1 r2 r3 : EmployeeRecord)
    (h1n : GoodString r1.name) (h1c : GoodString r1.city) (h1d : GoodString r1.department)
    (h2n : GoodString r2.name) (h2c : GoodString r2.city) (h2d : GoodString r2.department)
    (h3n : GoodString r3.name) (h3c : GoodString r3.city) (h3d : GoodString r3.department) :
    format_csv [r1, r2, r3] =
      "id,name,age,city,department,salary,years_experience,project_count" ++ "\r\n" ++
        csvLine r1 ++ "\r\n" ++ csvLine r2 ++ "\r\n" ++ csvLine r3 := by
  have ha : csvRow (recStrings r1) = csvLine r1 := csvRow_eq_csvLine r1 h1n h1c h1d
  have hb : csvRow (recStrings r2) = csvLine r2 := csvRow_eq_csvLine r2 h2n h2c h2d
  have hcc : csvRow (recStrings r3) = csvLine r3 := csvRow_eq_csvLine r3 h3n h3c h3d
  have estep : format_csv [r1, r2, r3] =
      pyStrip (("id,name,age,city,department,salary,years_experience,project_count" ++ "\r\n" ++
        csvLine r1 ++ "\r\n" ++ csvLine r2 ++ "\r\n" ++ csvLine r3) ++ "\r\n") := by
    show pyStrip (String.join
      ((csvRow headerNames :: List.map (fun r => csvRow (recStrings r)) [r1, r2, r3]).map
        (fun l => l ++ "\r\n"))) = _
    rw [show List.map (fun r => csvRow (recStrings r)) [r1, r2, r3] =
      [csvRow (recStrings r1), csvRow (recStrings r2), csvRow (recStrings r3)] from rfl]
    rw [csvRow_header, ha, hb, hcc]
    refine congrArg pyStrip (string_ext_data ?_)
    simp only [String.join, List.foldl, String.data_append, List.append_assoc,
      List.nil_append]
  rw [estep]
  apply pyStrip_append_crlf
  · refine head_append _ _ (head_append _ _ (head_append _ _ (head_append _ _
      (head_append _ _ (head_append _ _ ?_)))))
    exact ⟨'i', ("d,name,age,city,department,salary,years_experience,project_count").data,
      rfl, by decide⟩
  · apply rev_append
    unfold csvLine
    apply rev_append
    exact repr_rev_nonspace r3.project_count

/-- LineFree is closed under append. -/
theorem lineFree_append {a b : String} (ha : LineFree a) (hb : LineFree b) :
    LineFree (a ++ b) := by
  intro c hc
  rw [String.data_append] at hc
  rcases List.mem_append.mp hc with hc | hc
  · exact ha c hc
  · exact hb c hc

/-- A raw csv data row of a record with good string fields spans one line. -/
theorem csvLine_lineFree (r : EmployeeRecord) (hn : GoodString r.name)
    (hc : GoodString r.city) (hd : GoodString r.department) :
    LineFree (csvLine r) := by
  unfold csvLine
  have hcomma : LineFree (",") := by unfold LineFree; decide
  exact lineFree_append (lineFree_append (lineFree_append (lineFree_append
    (lineFree_append (lineFree_append (lineFree_append (lineFree_append
      (lineFree_append (lineFree_append (lineFree_append (lineFree_append
        (lineFree_append (lineFree_append (repr_good r.id).lineFree hcomma)
          hn.lineFree) hcomma) (repr_good r.age).lineFree) hcomma) hc.lineFree)
            hcomma) hd.lineFree) hcomma) (repr_good r.salary).lineFree) hcomma)
              (repr_good r.years_experience).lineFree) hcomma)
                (repr_good r.project_count).lineFree

/-- C8: any successful 3-record generation run (in particular the one under
    seed 202310) renders in csv as the exact header line
    id,name,age,city,department,salary,years_experience,project_count
    followed by exactly three CRLF-separated data rows, each free of line
    terminators; and renders in json as a three-element array of objects
    whose keys appear in that same field order, the string values holding no
    quote or escape characters. -/
theorem c8_concrete_scenario (t : Nat → Nat) (fuel : Nat)
    (rs : List EmployeeRecord)
    (h : generate_employee_records 3 t fuel = some rs) :
    ∃ r1 r2 r3, rs = [r1, r2, r3] ∧
      format_csv rs =
        "id,name,age,city,department,salary,years_experience,project_count" ++ "\r\n" ++
          csvLine r1 ++ "\r\n" ++ csvLine r2 ++ "\r\n" ++ csvLine r3 ∧
      LineFree (csvLine r1) ∧ LineFree (csvLine r2) ∧ LineFree (csvLine r3) ∧
      format_json rs =
        "[\n" ++ jsonObjRaw r1 ++ ",\n" ++ jsonObjRaw r2 ++ ",\n" ++ jsonObjRaw r3 ++ "\n]" ∧
      QuoteFree r1.name ∧ QuoteFree r1.city ∧ QuoteFree r1.department ∧
      QuoteFree r2.name ∧ QuoteFree r2.city ∧ QuoteFree r2.department ∧
      QuoteFree r3.name ∧ QuoteFree r3.city ∧ QuoteFree r3.department := by
  have hsome : ∃ used' pos', genRecordsAux t fuel 1 (Int.toNat 3) [] 0 = some (rs, used', pos') := by
    unfold generate_employee_records at h
    cases hg : genRecordsAux t fuel 1 (Int.toNat 3) [] 0 with
    | none => rw [hg] at h; cases h
    | some v =>
      obtain ⟨rs0, used', pos'⟩ := v
      rw [hg] at h
      obtain hrs : rs0 = rs := by simpa using h
      subst hrs
      exact ⟨used', pos', rfl⟩
  obtain ⟨used', pos', hg⟩ := hsome
  have hlen : rs.length = 3 :=
    genRecordsAux_length t fuel (Int.toNat 3) 1 [] 0 rs used' pos' hg
  obtain ⟨r1, r2, r3, hrs⟩ := List.length_eq_three.mp hlen
  subst hrs
  have hfields := (genRecordsAux_fields t fuel (Int.toNat 3) 1 [] 0 _ used' pos' hg).1
  obtain ⟨hsh1, _, _, _, _, _, _, hci1, hde1⟩ := hfields r1 (by simp)
  obtain ⟨hsh2, _, _, _, _, _, _, hci2, hde2⟩ := hfields r2 (by simp)
  obtain ⟨hsh3, _, _, _, _, _, _, hci3, hde3⟩ := hfields r3 (by simp)
  have h1n := hsh1.good
  have h2n := hsh2.good
  have h3n := hsh3.good
  have h1c := CITIES_good _ hci1
  have h2c := CITIES_good _ hci2
  have h3c := CITIES_good _ hci3
  have h1d := DEPARTMENTS_good _ hde1
  have h2d := DEPARTMENTS_good _ hde2
  have h3d := DEPARTMENTS_good _ hde3
  exact ⟨r1, r2, r3, rfl,
    format_csv_three r1 r2 r3 h1n h1c h1d h2n h2c h2d h3n h3c h3d,
    csvLine_lineFree r1 h1n h1c h1d, csvLine_lineFree r2 h2n h2c h2d,
    csvLine_lineFree r3 h3n h3c h3d,
    format_json_three r1 r2 r3 h1n h1c h1d h2n h2c h2d h3n h3c h3d,
    h1n.quoteFree, h1c.quoteFree, h1d.quoteFree,
    h2n.quoteFree, h2c.quoteFree, h2d.quoteFree,
    h3n.quoteFree, h3c.quoteFree, h3d.quoteFree⟩

/-- C8 witness: the theorem applied to a concrete successful 3-record run. -/
theorem c8_witness :
    generate_employee_records 3 tapeId 2 = some run3 ∧
    (∃ r1 r2 r3, run3 = [r1, r2, r3] ∧
      format_csv run3 =
        "id,name,age,city,department,salary,years_experience,project_count" ++ "\r\n" ++
          csvLine r1 ++ "\r\n" ++ csvLine r2 ++ "\r\n" ++ csvLine r3 ∧
      LineFree (csvLine r1) ∧ LineFree (csvLine r2) ∧ LineFree (csvLine r3) ∧
      format_json run3 =
        "[\n" ++ jsonObjRaw r1 ++ ",\n" ++ jsonObjRaw r2 ++ ",\n" ++ jsonObjRaw r3 ++ "\n]" ∧
      QuoteFree r1.name ∧ QuoteFree r1.city ∧ QuoteFree r1.department ∧
      QuoteFree r2.name ∧ QuoteFree r2.city ∧ QuoteFree r2.department ∧
      QuoteFree r3.name ∧ QuoteFree r3.city ∧ QuoteFree r3.department) :=
  ⟨rfl, c8_concrete_scenario tapeId 2 run3 rfl⟩

end TableFormats
